import Mathlib

/-!
Verification development for a pair of CRUD microservices (Users and
Workouts) with proxy/aggregation endpoints.  The definitions below are a
shallow embedding of the Python handlers in app/main.py and
workout_service/main.py: the relational store is a list of rows, a handler
is a function from the store (and the request data) to a result paired
with the updated store, and an outbound HTTP call is represented by the
result the peer would deliver (either a transport failure or a response
with a status code and a body).  JSON bodies of peers are kept opaque as
strings, matching the code, which forwards them verbatim.
-/

namespace FitnessTracker

/-- Gender enumeration of the Users service.  Modelled from the spec:
app/schemas.py is not part of the provided sources; the spec describes
gender as an enumeration of fixed categories and its concrete scenario
uses the value female. -/
inductive Gender where
  | male
  | female
  | other
deriving DecidableEq, Repr

/-- A persisted row of the users table (app/models.py, UserDB): integer
primary key user_id, name, email (unique), age, gender. -/
structure User where
  user_id : Nat
  name : String
  email : String
  age : Int
  gender : Gender
deriving DecidableEq, Repr

/-- The create/replace payload of the Users service.  Modelled from the
spec: app/schemas.py is not part of the provided sources; the field list
is the one the spec gives for User minus the server-generated identity,
and it matches the fields replace_user copies from the payload. -/
structure UserInput where
  name : String
  email : String
  age : Int
  gender : Gender
deriving DecidableEq, Repr

/-- A structured HTTP error as raised by HTTPException: a status code and
a detail message. -/
structure HError where
  status : Nat
  detail : String
deriving DecidableEq, Repr

/-- Result of one outbound httpx GET: either a transport failure
(httpx.RequestError: connection refused, DNS, timeout - no response
received) carrying the error description, or a response from the peer
with a status code and a body. -/
inductive HttpxResult where
  | transportErr (msg : String)
  | response (status : Nat) (body : String)
deriving DecidableEq, Repr

/-- httpx raise_for_status: a response counts as success exactly when its
status code is in the 2xx range. -/
def isSuccess (s : Nat) : Bool := 200 ≤ s && s < 300

namespace UsersService

/-- The server-assigned primary key for the next inserted users row: the
relational store autoincrements, one more than the largest key present. -/
def nextUserId (db : List User) : Nat :=
  (db.map User.user_id).foldl Nat.max 0 + 1

/-- db.get(UserDB, user_id): primary-key lookup in the users table. -/
def dbGetUser (db : List User) (uid : Nat) : Option User :=
  db.find? (fun u => u.user_id == uid)

/-- POST /api/users (add_user, app/main.py): builds a row from the
payload, adds it, and commits through commit_or_rollback with the message
"User already exists".  The store enforces uniqueness of email; a
violating commit raises IntegrityError, which commit_or_rollback turns
into a rollback (store unchanged) plus a 409 Conflict.  On success the
row with its server-assigned id is returned with 201. -/
def add_user (db : List User) (p : UserInput) :
    Except HError (Nat × User) × List User :=
  let user : User := ⟨nextUserId db, p.name, p.email, p.age, p.gender⟩
  if db.any (fun u => u.email == p.email) then
    (.error ⟨409, "User already exists"⟩, db)
  else
    (.ok (201, user), db ++ [user])

/-- The ascending-identity order on users rows, as produced by
order_by(UserDB.user_id). -/
def userLE (a b : User) : Prop := a.user_id ≤ b.user_id

instance : DecidableRel userLE := fun a b => Nat.decLe a.user_id b.user_id

instance : IsTotal User userLE := ⟨fun a b => Nat.le_total a.user_id b.user_id⟩

instance : IsTrans User userLE :=
  ⟨fun _ _ _ hab hbc => Nat.le_trans hab hbc⟩

/-- The full ascending-identity ordering of the users table, the order an
ORDER BY user_id scan delivers the rows in. -/
def sortUsersById (db : List User) : List User := List.insertionSort userLE db

/-- GET /api/users (list_users, app/main.py): SELECT ordered by user_id
ascending with LIMIT and OFFSET.  The query parameters default to
limit 10 and offset 0 when omitted (modelled as none). -/
def list_users (db : List User) (limit offset : Option Nat) : List User :=
  ((sortUsersById db).drop (offset.getD 0)).take (limit.getD 10)

/-- DELETE /api/users/user_id (delete_user, app/main.py): 404 when the
row is absent, otherwise the row is removed and 204 with an empty body is
returned. -/
def delete_user (db : List User) (uid : Nat) :
    Except HError (Nat × String) × List User :=
  match dbGetUser db uid with
  | none => (.error ⟨404, "User not found"⟩, db)
  | some _ => (.ok (204, ""), db.filter (fun u => !(u.user_id == uid)))

/-- GET /health of the Users service (app/main.py): always 200 with the
body field status = "ok". -/
structure HealthResponse where
  status_code : Nat
  status : String
deriving DecidableEq, Repr

/-- The Users service health endpoint response. -/
def health : HealthResponse := ⟨200, "ok"⟩

end UsersService

/-- Workout intensity enumeration (workout_service/schemas.py). -/
inductive Intensity where
  | low
  | medium
  | high
deriving DecidableEq, Repr

/-- Workout type enumeration (workout_service/schemas.py). -/
inductive WorkoutType where
  | cardio
  | strength
  | mobility
  | mixed
  | other
deriving DecidableEq, Repr

/-- A calendar date; the services only store and forward dates, never
compute with them. -/
structure WDate where
  year : Nat
  month : Nat
  day : Nat
deriving DecidableEq, Repr

/-- A persisted row of the workouts table (workout_service/models.py,
WorkoutDB).  The user_id column declares a foreign key to users.user_id,
but the workout service creates only its own table from its own metadata
and the store does not enforce the reference, so no existence check on
the user happens at the database layer (matching the spec). -/
structure Workout where
  id : Nat
  user_id : Nat
  name : String
  date : WDate
  duration_minutes : Nat
  intensity : Intensity
  workout_type : WorkoutType
  notes : Option String
  calories_burned : Option Nat
deriving DecidableEq, Repr

/-- The create/replace payload WorkoutCreate
(workout_service/schemas.py): the WorkoutBase fields plus user_id; it
carries no id and no calories_burned. -/
structure WorkoutCreate where
  name : String
  date : WDate
  duration_minutes : Nat
  intensity : Intensity
  workout_type : WorkoutType
  notes : Option String
  user_id : Nat
deriving DecidableEq, Repr

/-- The validation the schema layer applies to a WorkoutCreate payload
before it reaches the handler (workout_service/schemas.py): name 1-100
chars, duration_minutes 1-600, notes at most 1000 chars when given. -/
def validWorkoutCreate (p : WorkoutCreate) : Bool :=
  1 ≤ p.name.length && p.name.length ≤ 100 &&
  1 ≤ p.duration_minutes && p.duration_minutes ≤ 600 &&
  (match p.notes with
   | none => true
   | some s => s.length ≤ 1000)

/-- The PATCH payload WorkoutUpdate (workout_service/schemas.py): every
field optional; model_dump(exclude_unset=True) keeps exactly the fields
the request supplied, so the outer Option means "present in the
request".  For the two nullable columns the inner Option is the stored
value, so an explicitly supplied null is distinguishable from absence. -/
structure WorkoutUpdate where
  name : Option String
  date : Option WDate
  duration_minutes : Option Nat
  intensity : Option Intensity
  workout_type : Option WorkoutType
  notes : Option (Option String)
  calories_burned : Option (Option Nat)
deriving DecidableEq, Repr

/-- The PATCH payload in which no field was supplied at all. -/
def emptyWorkoutUpdate : WorkoutUpdate :=
  ⟨none, none, none, none, none, none, none⟩

namespace WorkoutService

/-- The server-assigned primary key for the next inserted workouts row. -/
def nextWorkoutId (db : List Workout) : Nat :=
  (db.map Workout.id).foldl Nat.max 0 + 1

/-- db.get(WorkoutDB, workout_id): primary-key lookup in the workouts
table. -/
def dbGetWorkout (db : List Workout) (wid : Nat) : Option Workout :=
  db.find? (fun w => w.id == wid)

/-- The row create_workout builds from the payload: WorkoutDB(**dump)
with the server-assigned id; calories_burned is not in the payload and
its nullable column stays at its default null. -/
def mkWorkout (db : List Workout) (p : WorkoutCreate) : Workout :=
  ⟨nextWorkoutId db, p.user_id, p.name, p.date, p.duration_minutes,
    p.intensity, p.workout_type, p.notes, none⟩

/-- POST /api/workouts (create_workout, workout_service/main.py).  The
handler never consults the users table (passed here to make that
explicit): it adds the row and commits.  The workouts table has no
uniqueness constraint beyond the fresh primary key and the foreign key is
not enforced by the store, so the commit succeeds and 201 is returned. -/
def create_workout (users : List User) (db : List Workout)
    (p : WorkoutCreate) : Except HError (Nat × Workout) × List Workout :=
  let _ := users
  let w := mkWorkout db p
  (.ok (201, w), db ++ [w])

/-- The ascending-identity order on workouts rows, as produced by
order_by(WorkoutDB.id). -/
def workoutLE (a b : Workout) : Prop := a.id ≤ b.id

instance : DecidableRel workoutLE := fun a b => Nat.decLe a.id b.id

instance : IsTotal Workout workoutLE := ⟨fun a b => Nat.le_total a.id b.id⟩

instance : IsTrans Workout workoutLE :=
  ⟨fun _ _ _ hab hbc => Nat.le_trans hab hbc⟩

/-- The full ascending-identity ordering of a set of workouts rows. -/
def sortWorkoutsById (db : List Workout) : List Workout :=
  List.insertionSort workoutLE db

/-- GET /api/workouts (list_workouts, workout_service/main.py): SELECT
ordered by id ascending, restricted by the optional user_id equality
filter, with LIMIT and OFFSET; limit defaults to 10, offset to 0. -/
def list_workouts (db : List Workout) (uid : Option Nat)
    (limit offset : Option Nat) : List Workout :=
  let rows := match uid with
    | none => db
    | some u => db.filter (fun w => w.user_id == u)
  ((sortWorkoutsById rows).drop (offset.getD 0)).take (limit.getD 10)

/-- PUT /api/workouts/workout_id (replace_workout,
workout_service/main.py): 404 when the row is absent; otherwise every
field of the payload is assigned onto the row (name, date,
duration_minutes, intensity, workout_type, notes, user_id), the id and
calories_burned are not touched, the commit succeeds (no uniqueness
constraint can fire) and the updated row is returned with 200. -/
def replace_workout (db : List Workout) (wid : Nat) (p : WorkoutCreate) :
    Except HError (Nat × Workout) × List Workout :=
  match dbGetWorkout db wid with
  | none => (.error ⟨404, "Workout not found"⟩, db)
  | some w =>
    let w2 : Workout :=
      { w with
        name := p.name
        date := p.date
        duration_minutes := p.duration_minutes
        intensity := p.intensity
        workout_type := p.workout_type
        notes := p.notes
        user_id := p.user_id }
    (.ok (200, w2), db.map (fun v => if v.id == wid then w2 else v))

/-- The loop "for field, value in data.items(): setattr(workout, field,
value)" over model_dump(exclude_unset=True): each supplied field
overwrites the row field, each absent field keeps its value. -/
def applyWorkoutUpdate (w : Workout) (p : WorkoutUpdate) : Workout :=
  { w with
    name := p.name.getD w.name
    date := p.date.getD w.date
    duration_minutes := p.duration_minutes.getD w.duration_minutes
    intensity := p.intensity.getD w.intensity
    workout_type := p.workout_type.getD w.workout_type
    notes := p.notes.getD w.notes
    calories_burned := p.calories_burned.getD w.calories_burned }

/-- PATCH /api/workouts/workout_id (update_workout,
workout_service/main.py): 404 when the row is absent; otherwise exactly
the supplied fields are assigned, the commit succeeds and the updated row
is returned with 200. -/
def update_workout (db : List Workout) (wid : Nat) (p : WorkoutUpdate) :
    Except HError (Nat × Workout) × List Workout :=
  match dbGetWorkout db wid with
  | none => (.error ⟨404, "Workout not found"⟩, db)
  | some w =>
    let w2 := applyWorkoutUpdate w p
    (.ok (200, w2), db.map (fun v => if v.id == wid then w2 else v))

/-- DELETE /api/workouts/workout_id (delete_workout,
workout_service/main.py): 404 when the row is absent, otherwise the row
is removed and 204 with an empty body is returned. -/
def delete_workout (db : List Workout) (wid : Nat) :
    Except HError (Nat × String) × List Workout :=
  match dbGetWorkout db wid with
  | none => (.error ⟨404, "Workout not found"⟩, db)
  | some _ => (.ok (204, ""), db.filter (fun w => !(w.id == wid)))

/-- The Workout service health endpoint (workout_service/main.py):
always 200, body field status = "workout service ok". -/
def health : UsersService.HealthResponse := ⟨200, "workout service ok"⟩

/-- The GET route paths the workout service registers
(workout_service/main.py). -/
def registeredGETPaths : List String :=
  ["/health", "/", "/api/workouts", "/api/workouts/\x7bworkout_id\x7d"]

/-- The body of the 404 response the web framework produces for a request
whose path matches no registered route. -/
def notFoundBody : String := "\x7b\"detail\":\"Not Found\"\x7d"

/-- Routing of a GET request by the workout service: a registered path is
answered by its handler (its body supplied here), any other path gets the
framework 404. -/
def dispatchGET (path : String) (okBody : String) : HttpxResult :=
  if registeredGETPaths.contains path then .response 200 okBody
  else .response 404 notFoundBody

end WorkoutService

namespace UsersService

/-- The development fallback of the workout peer base address
(app/main.py, WORKOUT_SERVICE_BASE_URL). -/
def WORKOUT_SERVICE_BASE_URL : String := "http://localhost:8001"

/-- The development fallback of the goals peer base address
(app/main.py, GOALS_SERVICE_BASE_URL). -/
def GOALS_SERVICE_BASE_URL : String := "http://localhost:8002"

/-- The path the proxy and aggregator handlers request on the workout
peer: the base URL is extended with "/workouts". -/
def workoutsDownstreamPath : String := "/workouts"

/-- The path the proxy and aggregator handlers request on the goals
peer: the base URL is extended with "/goals". -/
def goalsDownstreamPath : String := "/goals"

/-- The full URL proxy_workouts and user_summary issue their workout GET
against. -/
def proxyWorkoutsUrl : String :=
  WORKOUT_SERVICE_BASE_URL ++ workoutsDownstreamPath

/-- The payload of a successful proxy call: the marker field (the JSON
key "from") and the peer body forwarded verbatim. -/
structure ProxyPayload where
  from_field : String
  body : String
deriving DecidableEq, Repr

/-- GET /api/proxy/workouts/user_id (proxy_workouts, app/main.py): 404
when the user is absent locally; a transport failure of the peer call
becomes 502 with the transport error description embedded; a non-success
peer status becomes 502 with the peer body embedded; a successful peer
response is forwarded verbatim under the key "workouts" with 200. -/
def proxy_workouts (db : List User) (uid : Nat) (res : HttpxResult) :
    Except HError (Nat × ProxyPayload) :=
  match dbGetUser db uid with
  | none => .error ⟨404, "User not found"⟩
  | some _ =>
    match res with
    | .transportErr m =>
      .error ⟨502, "Error contacting workout service: " ++ m⟩
    | .response s b =>
      if isSuccess s then .ok (200, ⟨"user_service", b⟩)
      else .error ⟨502, "Workout service error: " ++ b⟩

/-- GET /api/proxy/goals/user_id (proxy_goals, app/main.py): same shape
as proxy_workouts against the goals peer, with its own messages and the
key "goals". -/
def proxy_goals (db : List User) (uid : Nat) (res : HttpxResult) :
    Except HError (Nat × ProxyPayload) :=
  match dbGetUser db uid with
  | none => .error ⟨404, "User not found"⟩
  | some _ =>
    match res with
    | .transportErr m =>
      .error ⟨502, "Error contacting goals service: " ++ m⟩
    | .response s b =>
      if isSuccess s then .ok (200, ⟨"user_service", b⟩)
      else .error ⟨502, "Goals service error: " ++ b⟩

/-- The public projection of a user the aggregator places under the key
"user": user_id, name, email, age, gender. -/
structure UserPublic where
  user_id : Nat
  name : String
  email : String
  age : Int
  gender : Gender
deriving DecidableEq, Repr

/-- The projection user_summary builds from the stored row. -/
def publicProjection (u : User) : UserPublic :=
  ⟨u.user_id, u.name, u.email, u.age, u.gender⟩

/-- The combined payload of a successful aggregation: the public
projection plus both peer bodies verbatim. -/
structure SummaryPayload where
  user : UserPublic
  workouts : String
  goals : String
deriving DecidableEq, Repr

/-- GET /api/user-summary/user_id (user_summary, app/main.py).  The
handler verifies the user exists (404 if not), then issues the workout
GET and the goals GET in sequence inside one client block, then calls
raise_for_status on the workout response and on the goals response in
that order.  A transport failure of the workout call aborts before the
goals call is made; a transport failure of the goals call aborts before
either raise_for_status; so failures are classified in the order: workout
transport, goals transport, workout status, goals status — each yielding
a single 502 error and discarding everything else.  Only when both calls
return success statuses is the one combined payload assembled. -/
def user_summary (db : List User) (uid : Nat)
    (wres gres : HttpxResult) : Except HError (Nat × SummaryPayload) :=
  match dbGetUser db uid with
  | none => .error ⟨404, "User not found"⟩
  | some u =>
    match wres with
    | .transportErr m =>
      .error ⟨502, "Error contacting downstream services: " ++ m⟩
    | .response ws wb =>
      match gres with
      | .transportErr m =>
        .error ⟨502, "Error contacting downstream services: " ++ m⟩
      | .response gs gb =>
        if !isSuccess ws then
          .error ⟨502, "Downstream service failed: " ++ wb⟩
        else if !isSuccess gs then
          .error ⟨502, "Downstream service failed: " ++ gb⟩
        else
          .ok (200, ⟨publicProjection u, wb, gb⟩)

end UsersService

/-! Concrete rows and payloads used by the witnesses below; they follow
the concrete scenarios of the spec. -/

/-- The create payload of the concrete Users scenario. -/
def annInput : UserInput := ⟨"Ann", "ann@x.com", 30, Gender.female⟩

/-- A second create payload reusing the same email. -/
def bobInput : UserInput := ⟨"Bob", "ann@x.com", 40, Gender.male⟩

/-- The stored row the first create of the scenario produces. -/
def annUser : User := ⟨1, "Ann", "ann@x.com", 30, Gender.female⟩

/-- The create payload of the concrete Workout scenario. -/
def runCreate : WorkoutCreate :=
  ⟨"Run", ⟨2024, 1, 1⟩, 30, Intensity.medium, WorkoutType.cardio, none, 1⟩

/-- The stored row that payload produces. -/
def runWorkout : Workout :=
  ⟨1, 1, "Run", ⟨2024, 1, 1⟩, 30, Intensity.medium, WorkoutType.cardio,
    none, none⟩

/-- A full-replace payload differing from the stored row in every
mutable field. -/
def swimCreate : WorkoutCreate :=
  ⟨"Swim", ⟨2024, 2, 2⟩, 45, Intensity.high, WorkoutType.other,
    some "pool", 2⟩

open UsersService WorkoutService

/-- Looking a key up in a table from which every row with that key was
just filtered out finds nothing. -/
theorem dbGetUser_filter_out (db : List User) (uid : Nat) :
    dbGetUser (db.filter (fun v => !(v.user_id == uid))) uid = none := by
  simp only [dbGetUser, List.find?_eq_none]
  intro x hx
  simp only [List.mem_filter, Bool.not_eq_eq_eq_not, Bool.not_true] at hx
  simp [hx.2]

/-- The workouts-table twin of the previous lemma. -/
theorem dbGetWorkout_filter_out (db : List Workout) (wid : Nat) :
    dbGetWorkout (db.filter (fun v => !(v.id == wid))) wid = none := by
  simp only [dbGetWorkout, List.find?_eq_none]
  intro x hx
  simp only [List.mem_filter, Bool.not_eq_eq_eq_not, Bool.not_true] at hx
  simp [hx.2]

/-- C9: the claim that every service answers GET /health with the body
status "ok" is false: the Workout service answers with the body status
"workout service ok". -/
theorem C9_counterexample :
    WorkoutService.health ≠
      (⟨200, "ok"⟩ : UsersService.HealthResponse) := by
  decide

/-- C9 (amended): every service answers GET /health with 200; the Users
service body is status "ok", while the Workout service body is status
"workout service ok". -/
theorem C9_health_responses :
    UsersService.health = (⟨200, "ok"⟩ : UsersService.HealthResponse) ∧
    WorkoutService.health =
      (⟨200, "workout service ok"⟩ : UsersService.HealthResponse) :=
  ⟨rfl, rfl⟩

/-- C4: for every limit L and offset O, the list operations return the
sub-sequence [O, O+L) of the full ascending-identity ordering of the
stored rows (an ordered permutation of the table), restricted first by
the optional user_id equality filter for workouts; the returned slice is
itself ordered by ascending identity, and an omitted limit defaults to 10
and an omitted offset to 0. -/
theorem C4_list_pagination (udb : List User) (wdb : List Workout)
    (fuid L O : Nat) :
    (sortUsersById udb).Perm udb ∧
    List.Sorted userLE (sortUsersById udb) ∧
    list_users udb (some L) (some O) =
      ((sortUsersById udb).drop O).take L ∧
    List.Sorted userLE (list_users udb (some L) (some O)) ∧
    list_users udb none none = ((sortUsersById udb).drop 0).take 10 ∧
    (sortWorkoutsById (wdb.filter (fun w => w.user_id == fuid))).Perm
      (wdb.filter (fun w => w.user_id == fuid)) ∧
    List.Sorted workoutLE
      (sortWorkoutsById (wdb.filter (fun w => w.user_id == fuid))) ∧
    list_workouts wdb (some fuid) (some L) (some O) =
      ((sortWorkoutsById (wdb.filter (fun w => w.user_id == fuid))).drop
        O).take L ∧
    List.Sorted workoutLE (list_workouts wdb (some fuid) (some L) (some O)) ∧
    list_workouts wdb none none none =
      ((sortWorkoutsById wdb).drop 0).take 10 := by
  refine ⟨List.perm_insertionSort _ _, List.sorted_insertionSort _ _, rfl,
    ?_, rfl, List.perm_insertionSort _ _, List.sorted_insertionSort _ _,
    rfl, ?_, rfl⟩
  · exact List.Pairwise.sublist
      ((List.take_sublist _ _).trans (List.drop_sublist _ _))
      (List.sorted_insertionSort _ _)
  · exact List.Pairwise.sublist
      ((List.take_sublist _ _).trans (List.drop_sublist _ _))
      (List.sorted_insertionSort _ _)

/-- C7: deleting an existing row answers 204 with an empty body and
removes the row; the identical second delete finds nothing and fails with
404 instead of silently succeeding — for users and for workouts. -/
theorem C7_delete_not_idempotent
    (udb : List User) (uid : Nat) (u : User)
    (hu : dbGetUser udb uid = some u)
    (wdb : List Workout) (wid : Nat) (w : Workout)
    (hw : dbGetWorkout wdb wid = some w) :
    (delete_user udb uid).1 = .ok (204, "") ∧
    dbGetUser (delete_user udb uid).2 uid = none ∧
    delete_user (delete_user udb uid).2 uid =
      (.error ⟨404, "User not found"⟩, (delete_user udb uid).2) ∧
    (delete_workout wdb wid).1 = .ok (204, "") ∧
    dbGetWorkout (delete_workout wdb wid).2 wid = none ∧
    delete_workout (delete_workout wdb wid).2 wid =
      (.error ⟨404, "Workout not found"⟩, (delete_workout wdb wid).2) := by
  have hu2 : (delete_user udb uid).2 =
      udb.filter (fun v => !(v.user_id == uid)) := by
    simp [delete_user, hu]
  have hw2 : (delete_workout wdb wid).2 =
      wdb.filter (fun v => !(v.id == wid)) := by
    simp [delete_workout, hw]
  have hnu : dbGetUser (delete_user udb uid).2 uid = none := by
    rw [hu2]; exact dbGetUser_filter_out udb uid
  have hnw : dbGetWorkout (delete_workout wdb wid).2 wid = none := by
    rw [hw2]; exact dbGetWorkout_filter_out wdb wid
  have habsu : ∀ (db : List User), dbGetUser db uid = none →
      delete_user db uid = (.error ⟨404, "User not found"⟩, db) := by
    intro db h
    simp [delete_user, h]
  have habsw : ∀ (db : List Workout), dbGetWorkout db wid = none →
      delete_workout db wid = (.error ⟨404, "Workout not found"⟩, db) := by
    intro db h
    simp [delete_workout, h]
  exact ⟨by simp [delete_user, hu], hnu, habsu _ hnu,
    by simp [delete_workout, hw], hnw, habsw _ hnw⟩

/-- C7 witness: the concrete scenario, second delete of user 1 and of
workout 1 both answer 404 with the store unchanged. -/
theorem C7_delete_not_idempotent_witness :
    delete_user (delete_user [annUser] 1).2 1 =
      (.error ⟨404, "User not found"⟩, (delete_user [annUser] 1).2) ∧
    delete_workout (delete_workout [runWorkout] 1).2 1 =
      (.error ⟨404, "Workout not found"⟩, (delete_workout [runWorkout] 1).2) := by
  have h := C7_delete_not_idempotent [annUser] 1 annUser rfl
    [runWorkout] 1 runWorkout rfl
  exact ⟨h.2.2.1, h.2.2.2.2.2⟩

/-- C8: workout creation never consults the users table: for every
validated payload it answers 201 with the stored row, and its result is
the same whatever the users table holds — in particular also when no user
with the payload user_id exists. -/
theorem C8_create_workout_ignores_users
    (users1 users2 : List User) (wdb : List Workout) (p : WorkoutCreate)
    (_hv : validWorkoutCreate p = true) :
    (create_workout users1 wdb p).1 = .ok (201, mkWorkout wdb p) ∧
    create_workout users1 wdb p = create_workout users2 wdb p :=
  ⟨rfl, rfl⟩

/-- C8 witness: the concrete workout payload is valid and creates with
201 both against a users table holding its user and against an empty
users table. -/
theorem C8_create_workout_ignores_users_witness :
    validWorkoutCreate runCreate = true ∧
    (create_workout [annUser] [] runCreate).1 =
      .ok (201, mkWorkout [] runCreate) ∧
    create_workout [annUser] [] runCreate = create_workout [] [] runCreate := by
  refine ⟨by decide, ?_, ?_⟩
  · exact (C8_create_workout_ignores_users [annUser] [] [] runCreate
      (by decide)).1
  · exact (C8_create_workout_ignores_users [annUser] [] [] runCreate
      (by decide)).2

/-- C2: every downstream failure of a proxy or aggregation call is
classified into exactly two kinds, both answered as 502: a transport
failure yields a 502 whose detail embeds the transport error description,
and a peer response with a non-success status yields a 502 whose detail
embeds the peer body verbatim — for proxy_workouts, proxy_goals, and both
positions of user_summary. -/
theorem C2_downstream_failure_classification
    (db : List User) (uid : Nat) (u : User)
    (hu : dbGetUser db uid = some u)
    (m b : String) (s : Nat) (hs : isSuccess s = false) :
    proxy_workouts db uid (.transportErr m) =
      .error ⟨502, "Error contacting workout service: " ++ m⟩ ∧
    proxy_workouts db uid (.response s b) =
      .error ⟨502, "Workout service error: " ++ b⟩ ∧
    proxy_goals db uid (.transportErr m) =
      .error ⟨502, "Error contacting goals service: " ++ m⟩ ∧
    proxy_goals db uid (.response s b) =
      .error ⟨502, "Goals service error: " ++ b⟩ ∧
    (∀ gres, user_summary db uid (.transportErr m) gres =
      .error ⟨502, "Error contacting downstream services: " ++ m⟩) ∧
    (∀ ws wb, user_summary db uid (.response ws wb) (.transportErr m) =
      .error ⟨502, "Error contacting downstream services: " ++ m⟩) ∧
    (∀ gs gb, user_summary db uid (.response s b) (.response gs gb) =
      .error ⟨502, "Downstream service failed: " ++ b⟩) ∧
    (∀ ws wb, isSuccess ws = true →
      user_summary db uid (.response ws wb) (.response s b) =
        .error ⟨502, "Downstream service failed: " ++ b⟩) := by
  refine ⟨by simp [proxy_workouts, hu], by simp [proxy_workouts, hu, hs],
    by simp [proxy_goals, hu], by simp [proxy_goals, hu, hs],
    fun gres => by simp [user_summary, hu],
    fun ws wb => by simp [user_summary, hu],
    fun gs gb => by simp [user_summary, hu, hs],
    fun ws wb hws => by simp [user_summary, hu, hs, hws]⟩

/-- C2 witness: with the one stored user, a transport failure of the
workout call is answered 502 with the transport description embedded. -/
theorem C2_downstream_failure_classification_witness :
    proxy_workouts [annUser] 1 (.transportErr "connection refused") =
      .error ⟨502, "Error contacting workout service: connection refused"⟩ ∧
    proxy_workouts [annUser] 1 (.response 500 "peer body") =
      .error ⟨502, "Workout service error: peer body"⟩ :=
  ⟨(C2_downstream_failure_classification [annUser] 1 annUser rfl
      "connection refused" "peer body" 500 (by decide)).1,
    (C2_downstream_failure_classification [annUser] 1 annUser rfl
      "connection refused" "peer body" 500 (by decide)).2.1⟩

/-- C1: the user-summary aggregation answers 404 when the user is absent
locally; when the user exists and either downstream call fails (transport
failure or non-success status) the whole operation fails with one 502
error carrying no payload at all; when the user exists and both calls
succeed it answers 200 with exactly one payload holding the public
projection of the user (user_id, name, email, age, gender) and both peer
bodies verbatim under the workouts and goals slots. -/
theorem C1_user_summary_aggregation
    (db : List User) (uid : Nat) (u : User) (wres gres : HttpxResult) :
    (dbGetUser db uid = none →
      user_summary db uid wres gres = .error ⟨404, "User not found"⟩) ∧
    (dbGetUser db uid = some u →
      (((∃ m, wres = .transportErr m) ∨ (∃ m, gres = .transportErr m) ∨
        (∃ s bb, wres = .response s bb ∧ isSuccess s = false) ∨
        (∃ s bb, gres = .response s bb ∧ isSuccess s = false)) →
        ∃ d, user_summary db uid wres gres = .error ⟨502, d⟩) ∧
      (∀ ws wb gs gb, wres = .response ws wb → gres = .response gs gb →
        isSuccess ws = true → isSuccess gs = true →
        user_summary db uid wres gres =
          .ok (200, ⟨publicProjection u, wb, gb⟩))) := by
  constructor
  · intro h
    simp [user_summary, h]
  · intro hu
    constructor
    · rintro (⟨m, rfl⟩ | ⟨m, rfl⟩ | ⟨s, bb, rfl, hs⟩ | ⟨s, bb, rfl, hs⟩)
      · exact ⟨"Error contacting downstream services: " ++ m,
          by simp [user_summary, hu]⟩
      · cases wres with
        | transportErr mw =>
          exact ⟨"Error contacting downstream services: " ++ mw,
            by simp [user_summary, hu]⟩
        | response ws wb =>
          exact ⟨"Error contacting downstream services: " ++ m,
            by simp [user_summary, hu]⟩
      · cases gres with
        | transportErr mg =>
          exact ⟨"Error contacting downstream services: " ++ mg,
            by simp [user_summary, hu]⟩
        | response gs gb =>
          exact ⟨"Downstream service failed: " ++ bb,
            by simp [user_summary, hu, hs]⟩
      · cases wres with
        | transportErr mw =>
          exact ⟨"Error contacting downstream services: " ++ mw,
            by simp [user_summary, hu]⟩
        | response ws wb =>
          cases hws : isSuccess ws with
          | false =>
            exact ⟨"Downstream service failed: " ++ wb,
              by simp [user_summary, hu, hws]⟩
          | true =>
            exact ⟨"Downstream service failed: " ++ bb,
              by simp [user_summary, hu, hws, hs]⟩
    · rintro ws wb gs gb rfl rfl hws hgs
      simp [user_summary, hu, hws, hgs]

/-- C1 witness: the concrete scenario, the stored user with both peers
answering success statuses yields the single combined payload; with the
workout peer answering 500 it yields a 502 error. -/
theorem C1_user_summary_aggregation_witness :
    user_summary [annUser] 1 (.response 200 "[w]") (.response 200 "[g]") =
      .ok (200, ⟨publicProjection annUser, "[w]", "[g]"⟩) ∧
    (∃ d, user_summary [annUser] 1 (.response 500 "boom")
      (.response 200 "[g]") = .error ⟨502, d⟩) :=
  ⟨((C1_user_summary_aggregation [annUser] 1 annUser (.response 200 "[w]")
      (.response 200 "[g]")).2 rfl).2 200 "[w]" 200 "[g]" rfl rfl
      (by decide) (by decide),
    ((C1_user_summary_aggregation [annUser] 1 annUser (.response 500 "boom")
      (.response 200 "[g]")).2 rfl).1
      (Or.inr (Or.inr (Or.inl ⟨500, "boom", rfl, by decide⟩)))⟩

/-- C3: creating a second user with an email already stored makes the
commit fail on the uniqueness constraint; commit_or_rollback rolls the
pending write back (the store is exactly what it was after the first
create) and answers 409 with the caller message, and the first stored
record is still present and unchanged. -/
theorem C3_duplicate_email_conflict
    (db : List User) (p1 p2 : UserInput) (he : p2.email = p1.email)
    (r1 : Nat × User) (db1 : List User)
    (h1 : add_user db p1 = (.ok r1, db1)) :
    add_user db1 p2 = (.error ⟨409, "User already exists"⟩, db1) ∧
    r1.2 ∈ db1 ∧
    r1 = (201, ⟨nextUserId db, p1.name, p1.email, p1.age, p1.gender⟩) := by
  simp only [add_user] at h1
  split at h1
  · simp at h1
  · simp only [Prod.mk.injEq, Except.ok.injEq] at h1
    obtain ⟨hr, hdb⟩ := h1
    subst hdb
    subst hr
    refine ⟨?_, by simp, rfl⟩
    have hany : (db ++
        [(⟨nextUserId db, p1.name, p1.email, p1.age, p1.gender⟩ : User)]).any
        (fun u => u.email == p2.email) = true := by
      simp [he]
    simp [add_user, hany]

/-- C3 witness: the concrete scenario, the second create with the email
already stored answers 409 and leaves the store as it was. -/
theorem C3_duplicate_email_conflict_witness :
    add_user [annUser] bobInput =
      (.error ⟨409, "User already exists"⟩, [annUser]) :=
  (C3_duplicate_email_conflict [] annInput bobInput rfl (201, annUser)
    [annUser] rfl).1

/-- A helper for the frame theorems: writing the row found under a key
back over every row with that key is the identity on a table whose keys
are unique. -/
theorem map_writeback_id (db : List Workout) (wid : Nat) (w : Workout)
    (hids : (db.map Workout.id).Nodup)
    (hw : dbGetWorkout db wid = some w) :
    db.map (fun v => if v.id == wid then w else v) = db := by
  have hw2 : db.find? (fun v => v.id == wid) = some w := hw
  have hwmem : w ∈ db := List.mem_of_find?_eq_some hw2
  have hwid := List.find?_some hw2
  have hpt : ∀ v ∈ db, (if v.id == wid then w else v) = id v := by
    intro v hv
    by_cases h : (v.id == wid) = true
    · have hvw : v = w := by
        apply List.inj_on_of_nodup_map hids hv hwmem
        rw [eq_of_beq h, eq_of_beq hwid]
      simp [h, hvw]
    · simp [h]
  rw [List.map_congr_left hpt, List.map_id]

/-- C5: a PATCH on an existing workout answers 200 with the row in which
exactly the fields present in the payload carry the supplied values and
every other field — including the identity and user_id, which the PATCH
schema does not even carry — keeps its prior value; a PATCH with an empty
field set answers 200 with the current row and leaves the table
unchanged. -/
theorem C5_update_only_present_fields
    (db : List Workout) (wid : Nat) (w : Workout) (p : WorkoutUpdate)
    (hids : (db.map Workout.id).Nodup)
    (hw : dbGetWorkout db wid = some w) :
    (update_workout db wid p).1 = .ok (200, applyWorkoutUpdate w p) ∧
    (p = emptyWorkoutUpdate →
      update_workout db wid p = (.ok (200, w), db)) ∧
    (applyWorkoutUpdate w p).id = w.id ∧
    (applyWorkoutUpdate w p).user_id = w.user_id ∧
    (p.name = none → (applyWorkoutUpdate w p).name = w.name) ∧
    (∀ v, p.name = some v → (applyWorkoutUpdate w p).name = v) ∧
    (p.date = none → (applyWorkoutUpdate w p).date = w.date) ∧
    (∀ v, p.date = some v → (applyWorkoutUpdate w p).date = v) ∧
    (p.duration_minutes = none →
      (applyWorkoutUpdate w p).duration_minutes = w.duration_minutes) ∧
    (∀ v, p.duration_minutes = some v →
      (applyWorkoutUpdate w p).duration_minutes = v) ∧
    (p.intensity = none → (applyWorkoutUpdate w p).intensity = w.intensity) ∧
    (∀ v, p.intensity = some v → (applyWorkoutUpdate w p).intensity = v) ∧
    (p.workout_type = none →
      (applyWorkoutUpdate w p).workout_type = w.workout_type) ∧
    (∀ v, p.workout_type = some v →
      (applyWorkoutUpdate w p).workout_type = v) ∧
    (p.notes = none → (applyWorkoutUpdate w p).notes = w.notes) ∧
    (∀ v, p.notes = some v → (applyWorkoutUpdate w p).notes = v) ∧
    (p.calories_burned = none →
      (applyWorkoutUpdate w p).calories_burned = w.calories_burned) ∧
    (∀ v, p.calories_burned = some v →
      (applyWorkoutUpdate w p).calories_burned = v) := by
  refine ⟨by simp [update_workout, hw], ?_,
    rfl, rfl,
    fun h => by simp [applyWorkoutUpdate, h],
    fun v h => by simp [applyWorkoutUpdate, h],
    fun h => by simp [applyWorkoutUpdate, h],
    fun v h => by simp [applyWorkoutUpdate, h],
    fun h => by simp [applyWorkoutUpdate, h],
    fun v h => by simp [applyWorkoutUpdate, h],
    fun h => by simp [applyWorkoutUpdate, h],
    fun v h => by simp [applyWorkoutUpdate, h],
    fun h => by simp [applyWorkoutUpdate, h],
    fun v h => by simp [applyWorkoutUpdate, h],
    fun h => by simp [applyWorkoutUpdate, h],
    fun v h => by simp [applyWorkoutUpdate, h],
    fun h => by simp [applyWorkoutUpdate, h],
    fun v h => by simp [applyWorkoutUpdate, h]⟩
  intro hp
  subst hp
  have hid : applyWorkoutUpdate w emptyWorkoutUpdate = w := rfl
  simp only [update_workout, hw]
  rw [hid, map_writeback_id db wid w hids hw]

/-- C5 witness: the concrete scenario, the empty PATCH on the stored
workout answers 200 with the current row and an unchanged table. -/
theorem C5_update_only_present_fields_witness :
    update_workout [runWorkout] 1 emptyWorkoutUpdate =
      (.ok (200, runWorkout), [runWorkout]) :=
  (C5_update_only_present_fields [runWorkout] 1 runWorkout
    emptyWorkoutUpdate (by decide) rfl).2.1 rfl

/-- C6: a PUT on an existing workout answers 200 with the row in which
every mutable field (name, date, duration_minutes, intensity,
workout_type, notes, user_id) carries the payload value while the
identity and the server-computed calories_burned — absent from the
replace payload — keep their prior values; a PUT on an absent id answers
404 and leaves the table unchanged. -/
theorem C6_replace_overwrites_mutable_fields
    (db : List Workout) (wid : Nat) (p : WorkoutCreate) :
    (dbGetWorkout db wid = none →
      replace_workout db wid p = (.error ⟨404, "Workout not found"⟩, db)) ∧
    (∀ w, dbGetWorkout db wid = some w →
      (replace_workout db wid p).1 = .ok (200,
        ⟨w.id, p.user_id, p.name, p.date, p.duration_minutes, p.intensity,
          p.workout_type, p.notes, w.calories_burned⟩)) := by
  constructor
  · intro h
    simp [replace_workout, h]
  · intro w h
    simp [replace_workout, h]

/-- C6 witness: the concrete scenario, replacing the stored run workout
keeps id 1 and the null calories_burned and takes every other field from
the payload; replacing in an empty table answers 404. -/
theorem C6_replace_overwrites_mutable_fields_witness :
    (replace_workout [runWorkout] 1 swimCreate).1 = .ok (200,
      ⟨1, 2, "Swim", ⟨2024, 2, 2⟩, 45, Intensity.high, WorkoutType.other,
        some "pool", none⟩) ∧
    replace_workout [] 1 swimCreate =
      (.error ⟨404, "Workout not found"⟩, []) :=
  ⟨(C6_replace_overwrites_mutable_fields [runWorkout] 1 swimCreate).2
      runWorkout rfl,
    (C6_replace_overwrites_mutable_fields [] 1 swimCreate).1 rfl⟩

/-- C10: the aggregator requests the path "/workouts" on the peer, but
the workout service of this repository registers its list route at
"/api/workouts" and no route at "/workouts"; so against the in-repo peer
the dispatched response is the framework 404, every proxy-workouts
request for an existing user is answered 502 with that body embedded,
and every user-summary request for an existing user is answered 502
whatever the goals peer does — the success branch is unreachable. -/
theorem C10_downstream_path_mismatch
    (db : List User) (uid : Nat) (u : User)
    (hu : dbGetUser db uid = some u)
    (okBody : String) (gres : HttpxResult) :
    registeredGETPaths.contains workoutsDownstreamPath = false ∧
    registeredGETPaths.contains "/api/workouts" = true ∧
    dispatchGET workoutsDownstreamPath okBody = .response 404 notFoundBody ∧
    proxy_workouts db uid (dispatchGET workoutsDownstreamPath okBody) =
      .error ⟨502, "Workout service error: " ++ notFoundBody⟩ ∧
    (∃ d, user_summary db uid (dispatchGET workoutsDownstreamPath okBody)
      gres = .error ⟨502, d⟩) := by
  have h404 : isSuccess 404 = false := rfl
  have hd : dispatchGET workoutsDownstreamPath okBody =
      .response 404 notFoundBody := rfl
  refine ⟨rfl, rfl, hd, ?_, ?_⟩
  · rw [hd]
    simp [proxy_workouts, hu, h404]
  · rw [hd]
    cases gres with
    | transportErr mg =>
      exact ⟨"Error contacting downstream services: " ++ mg,
        by simp [user_summary, hu]⟩
    | response gs gb =>
      exact ⟨"Downstream service failed: " ++ notFoundBody,
        by simp [user_summary, hu, h404]⟩

/-- C10 witness: the concrete scenario against the in-repo peer routing:
proxy-workouts for the stored user answers 502 embedding the framework
404 body, and user-summary answers 502 as well. -/
theorem C10_downstream_path_mismatch_witness :
    proxy_workouts [annUser] 1 (dispatchGET workoutsDownstreamPath "[]") =
      .error ⟨502, "Workout service error: " ++ notFoundBody⟩ ∧
    (∃ d, user_summary [annUser] 1
      (dispatchGET workoutsDownstreamPath "[]") (.response 200 "[g]") =
        .error ⟨502, d⟩) :=
  ⟨(C10_downstream_path_mismatch [annUser] 1 annUser rfl "[]"
      (.response 200 "[g]")).2.2.2.1,
    (C10_downstream_path_mismatch [annUser] 1 annUser rfl "[]"
      (.response 200 "[g]")).2.2.2.2⟩

end FitnessTracker
